import Mathlib

/-!
Shallow embedding of the snoqflak pipeline scripts: the Snowflake connector
(`scripts/utils/snowflake_connector.py`), the API ingestion module
(`scripts/ingestion/api_ingestion.py`), the file ingestion module
(`scripts/ingestion/file_ingestion.py`) and the pipeline orchestrator
(`scripts/orchestration/pipeline_orchestrator.py`).

Python values that flow through JSON decoding are modelled by `PyVal`;
external effects (HTTP requests, sleeps, cursor executions, commits) are
modelled as explicit event traces, and the outcomes of external calls are
supplied by oracles, so every function is a pure Lean function of its
inputs and its environment.
-/

namespace Snoqflak

/-- A JSON-decoded Python value, as produced by `response.json()`. -/
inductive PyVal where
  | pyList : List PyVal → PyVal
  | pyDict : List (String × PyVal) → PyVal
  | pyStr : String → PyVal
  | pyInt : Int → PyVal
  | pyBool : Bool → PyVal
  | pyNone : PyVal

/-- Python dict key lookup (`data['k']` / `'k' in data`) over the
association-list model of a dict (keys unique, insertion order kept). -/
def dictGet (kvs : List (String × PyVal)) (k : String) : Option PyVal :=
  (kvs.find? (fun p => p.1 == k)).map (fun p => p.2)

/-- Python `str(x)` for the scalar values that can reach the
`return [{'raw_data': str(data)}]` branch (a decoded JSON scalar). -/
def pyStrOf : PyVal → String
  | .pyList _ => ""
  | .pyDict _ => ""
  | .pyStr s => s
  | .pyInt n => toString n
  | .pyBool b => if b then "True" else "False"
  | .pyNone => "None"

/-- Response-shape normalization from `APIIngestion._fetch_api_data`
(lines 82-94): the `isinstance(data, list) / isinstance(data, dict)`
cascade over the decoded body. -/
def normalizeResponse (data : PyVal) : List PyVal :=
  match data with
  | .pyList xs => xs
  | .pyDict kvs =>
    match dictGet kvs "data" with
    | some v =>
      match v with
      | .pyList xs => xs
      | _ => [v]
    | none =>
      match dictGet kvs "results" with
      | some v =>
        match v with
        | .pyList xs => xs
        | _ => [v]
      | none => [.pyDict kvs]
  | other => [.pyDict [("raw_data", .pyStr (pyStrOf other))]]

/-- Outcome of one `requests.request(...)` attempt: either the transport
raises `requests.exceptions.RequestException`, or the call succeeds
(status ok) and the body decodes to the given value. -/
inductive AttemptResult where
  | raise : AttemptResult
  | body : PyVal → AttemptResult

/-- Observable events of `_fetch_api_data`: the rate-limit sleep before an
attempt, the HTTP request itself, and the fixed retry-delay sleep. -/
inductive FetchEvent where
  | rateSleep : FetchEvent
  | request : FetchEvent
  | retrySleep : Nat → FetchEvent
deriving DecidableEq, Repr

/-- The `rate_limit` section of the `api_ingestion` config; `none` fields
are keys absent from the YAML, read through `dict.get(key, default)`. -/
structure RateLimitConfig where
  retry_attempts : Option Nat
  retry_delay : Option Nat
  requests_per_second : Option Nat
deriving DecidableEq, Repr

/-- The retry loop of `_fetch_api_data` (lines 64-104), unrolled on the
remaining iteration count `fuel`; `attempt` is the loop variable. Each
iteration sleeps for rate limiting, issues the request, and on a transport
exception either sleeps `delay` and retries (when `attempt < maxRetries - 1`)
or gives up with `none`. -/
def fetchFrom (maxRetries delay : Nat) (oracle : Nat → AttemptResult) :
    Nat → Nat → List FetchEvent × Option (List PyVal)
  | _, 0 => ([], none)
  | attempt, fuel + 1 =>
    match oracle attempt with
    | .body b => ([.rateSleep, .request], some (normalizeResponse b))
    | .raise =>
      if attempt < maxRetries - 1 then
        let rest := fetchFrom maxRetries delay oracle (attempt + 1) fuel
        ([.rateSleep, .request, .retrySleep delay] ++ rest.1, rest.2)
      else
        ([.rateSleep, .request], none)

/-- `APIIngestion._fetch_api_data`: runs the retry loop for at most
`retry_attempts` (default 3) iterations with retry delay `retry_delay`
(default 5); the oracle gives each attempt's transport outcome. -/
def fetch_api_data (cfg : RateLimitConfig) (oracle : Nat → AttemptResult) :
    List FetchEvent × Option (List PyVal) :=
  fetchFrom (cfg.retry_attempts.getD 3) (cfg.retry_delay.getD 5) oracle 0
    (cfg.retry_attempts.getD 3)

/-- Number of HTTP requests in a fetch trace. -/
def requestCount (trace : List FetchEvent) : Nat :=
  trace.countP (fun e => e == FetchEvent.request)

/-- The retry-delay amounts appearing in a fetch trace, in order. -/
def retrySleeps (trace : List FetchEvent) : List Nat :=
  trace.filterMap (fun e => match e with | .retrySleep d => some d | _ => none)

theorem retrySleeps_append (a b : List FetchEvent) :
    retrySleeps (a ++ b) = retrySleeps a ++ retrySleeps b := by
  simp [retrySleeps]

theorem requestCount_append (a b : List FetchEvent) :
    requestCount (a ++ b) = requestCount a + requestCount b := by
  simp [requestCount, List.countP_append]

/-- When every attempt raises a transport exception, the loop started at
`attempt` with `fuel` remaining iterations (where `attempt + fuel` equals
the retry budget) makes `fuel` requests, sleeps the retry delay `fuel - 1`
times, and returns `none`. -/
theorem fetchFrom_all_raise (maxRetries delay : Nat) (oracle : Nat → AttemptResult)
    (h : ∀ i, oracle i = AttemptResult.raise) :
    ∀ fuel attempt, attempt + fuel = maxRetries →
      (fetchFrom maxRetries delay oracle attempt fuel).2 = none ∧
      requestCount (fetchFrom maxRetries delay oracle attempt fuel).1 = fuel ∧
      retrySleeps (fetchFrom maxRetries delay oracle attempt fuel).1 =
        List.replicate (fuel - 1) delay := by
  intro fuel
  induction fuel with
  | zero =>
    intro attempt _
    simp [fetchFrom, requestCount, retrySleeps]
  | succ f ih =>
    intro attempt hinv
    rcases Nat.eq_zero_or_pos f with hf | hf
    · subst hf
      have hlt : ¬ attempt < maxRetries - 1 := by omega
      simp [fetchFrom, h attempt, hlt, requestCount, retrySleeps]
    · have hlt : attempt < maxRetries - 1 := by omega
      have ihx := ih (attempt + 1) (by omega)
      simp only [fetchFrom, h attempt, hlt, if_true]
      refine ⟨ihx.1, ?_, ?_⟩
      · rw [requestCount_append, ihx.2.1]
        simp [requestCount]
        omega
      · rw [retrySleeps_append, ihx.2.2]
        have : f + 1 - 1 = (f - 1) + 1 := by omega
        simp [retrySleeps, this, List.replicate_succ]

/-- C1: with every attempt failing at transport, `_fetch_api_data` makes
exactly `retry_attempts` (default 3) HTTP requests, sleeps `retry_delay`
(default 5) between consecutive attempts — the sleeps are all equal, with
no exponential growth — and returns an absent result (`none`), not an
empty list. -/
theorem fetch_api_data_all_transport_failures (cfg : RateLimitConfig)
    (oracle : Nat → AttemptResult)
    (h : ∀ i, oracle i = AttemptResult.raise) :
    (fetch_api_data cfg oracle).2 = none ∧
    requestCount (fetch_api_data cfg oracle).1 = cfg.retry_attempts.getD 3 ∧
    retrySleeps (fetch_api_data cfg oracle).1 =
      List.replicate (cfg.retry_attempts.getD 3 - 1) (cfg.retry_delay.getD 5) ∧
    (fetch_api_data cfg oracle).2 ≠ some [] := by
  have hmain := fetchFrom_all_raise (cfg.retry_attempts.getD 3) (cfg.retry_delay.getD 5)
    oracle h (cfg.retry_attempts.getD 3) 0 (by omega)
  refine ⟨hmain.1, hmain.2.1, hmain.2.2, ?_⟩
  rw [show (fetch_api_data cfg oracle).2 =
    (fetchFrom (cfg.retry_attempts.getD 3) (cfg.retry_delay.getD 5) oracle 0
      (cfg.retry_attempts.getD 3)).2 from rfl, hmain.1]
  simp

/-- Witness for C1 at the default configuration (all keys absent) and an
oracle that raises on every attempt: 3 requests, sleeps `[5, 5]`, `none`. -/
theorem fetch_api_data_all_transport_failures_witness :
    (fetch_api_data ⟨none, none, none⟩ (fun _ => AttemptResult.raise)).2 = none ∧
    requestCount (fetch_api_data ⟨none, none, none⟩ (fun _ => AttemptResult.raise)).1 = 3 ∧
    retrySleeps (fetch_api_data ⟨none, none, none⟩ (fun _ => AttemptResult.raise)).1 =
      List.replicate 2 5 ∧
    (fetch_api_data ⟨none, none, none⟩ (fun _ => AttemptResult.raise)).2 ≠ some [] :=
  fetch_api_data_all_transport_failures ⟨none, none, none⟩ _ (fun _ => rfl)

/-- `isinstance(data, (list, dict))`: is the decoded body a sequence or a
mapping? -/
def isSeqOrMapping : PyVal → Bool
  | .pyList _ => true
  | .pyDict _ => true
  | _ => false

/-- C3: on a successfully decoded body, `_fetch_api_data` returns the
normalized body, and normalization behaves as specified: a list passes
through unchanged; a dict prefers its `data` key, else its `results` key
(wrapping a non-list value in a one-element list), else is wrapped whole;
anything else becomes a one-element list holding a dict with `raw_data`
mapped to its string form. -/
theorem fetch_api_data_normalizes (cfg : RateLimitConfig)
    (oracle : Nat → AttemptResult) (b : PyVal)
    (h0 : oracle 0 = AttemptResult.body b)
    (hpos : 0 < cfg.retry_attempts.getD 3) :
    (fetch_api_data cfg oracle).2 = some (normalizeResponse b) ∧
    (∀ xs, normalizeResponse (.pyList xs) = xs) ∧
    (∀ kvs v, dictGet kvs "data" = some v →
      normalizeResponse (.pyDict kvs) =
        (match v with | .pyList xs => xs | _ => [v])) ∧
    (∀ kvs v, dictGet kvs "data" = none → dictGet kvs "results" = some v →
      normalizeResponse (.pyDict kvs) =
        (match v with | .pyList xs => xs | _ => [v])) ∧
    (∀ kvs, dictGet kvs "data" = none → dictGet kvs "results" = none →
      normalizeResponse (.pyDict kvs) = [.pyDict kvs]) ∧
    (∀ v, isSeqOrMapping v = false →
      normalizeResponse v = [.pyDict [("raw_data", .pyStr (pyStrOf v))]]) := by
  refine ⟨?_, ?_, ?_, ?_, ?_, ?_⟩
  · obtain ⟨m, hm⟩ : ∃ m, cfg.retry_attempts.getD 3 = m + 1 :=
      ⟨cfg.retry_attempts.getD 3 - 1, by omega⟩
    simp [fetch_api_data, hm, fetchFrom, h0]
  · intro xs
    rfl
  · intro kvs v hv
    simp only [normalizeResponse, hv]
  · intro kvs v hd hv
    simp only [normalizeResponse, hd, hv]
  · intro kvs hd hr
    simp only [normalizeResponse, hd, hr]
  · intro v hv
    cases v <;> simp_all [normalizeResponse, isSeqOrMapping]

/-- Witness for C3: a first attempt returning the body
`\x7b"data": [\x7b"a": 1\x7d]\x7d` under the default retry budget yields
`[\x7b"a": 1\x7d]`, together with the normalization equations evaluated at
the spec's example bodies. -/
theorem fetch_api_data_normalizes_witness :
    (fetch_api_data ⟨none, none, none⟩
      (fun _ => AttemptResult.body
        (.pyDict [("data", .pyList [.pyDict [("a", .pyInt 1)]])]))).2 =
      some [PyVal.pyDict [("a", .pyInt 1)]] := by
  have h := fetch_api_data_normalizes ⟨none, none, none⟩
    (fun _ => AttemptResult.body
      (.pyDict [("data", .pyList [.pyDict [("a", .pyInt 1)]])]))
    (.pyDict [("data", .pyList [.pyDict [("a", .pyInt 1)]])])
    rfl (by decide)
  exact h.1

/-! ### SnowflakeConnector (`scripts/utils/snowflake_connector.py`) -/

/-- Python `str.split(';')`: cut at every semicolon, keeping empty
segments (so `n` semicolons give `n + 1` segments). -/
def splitOnSemicolon : List Char → List (List Char)
  | [] => [[]]
  | c :: cs =>
    let rest := splitOnSemicolon cs
    if c = ';' then [] :: rest
    else
      match rest with
      | [] => [[c]]
      | r :: rs => (c :: r) :: rs

/-- Whitespace as stripped by Python `str.strip()`. -/
def isPyWhitespace (c : Char) : Bool :=
  c = ' ' || c = '\t' || c = '\n' || c = '\r' || c = '\x0b' || c = '\x0c'

/-- Python `str.strip()`: drop leading and trailing whitespace. -/
def stripChars (s : List Char) : List Char :=
  ((s.dropWhile isPyWhitespace).reverse.dropWhile isPyWhitespace).reverse

/-- The statements `execute_file` runs for a given file content: split on
semicolons, strip each piece, keep the non-empty ones (lines 66-70). -/
def fileStatements (content : String) : List String :=
  (((splitOnSemicolon content.data).map stripChars).filter
    (fun s => !s.isEmpty)).map (fun s => String.mk s)

/-- Observable cursor activity of `execute_file`: statement executions and
the final commit. -/
inductive SqlEvent where
  | execStmt : String → SqlEvent
  | commit : SqlEvent
deriving DecidableEq, Repr

/-- The statement loop of `execute_file`: run each statement through the
cursor; the oracle says whether the `k`-th executed statement succeeds.
The first failing statement raises, aborting the loop after its `execute`
call. -/
def runStatements (oracle : Nat → Bool) : List String → Nat → Bool × List SqlEvent
  | [], _ => (true, [])
  | s :: rest, k =>
    if oracle k then
      let r := runStatements oracle rest (k + 1)
      (r.1, SqlEvent.execStmt s :: r.2)
    else
      (false, [SqlEvent.execStmt s])

/-- `SnowflakeConnector.execute_file` (lines 58-73): execute every
non-empty stripped statement in order, then `conn.commit()`; a statement
failure propagates (first component `false`) and skips the commit. -/
def execute_file (content : String) (oracle : Nat → Bool) : Bool × List SqlEvent :=
  let r := runStatements oracle (fileStatements content) 0
  if r.1 then (true, r.2 ++ [SqlEvent.commit]) else (false, r.2)

/-- Number of statement executions in a cursor trace. -/
def execCount (trace : List SqlEvent) : Nat :=
  trace.countP (fun e => match e with | .execStmt _ => true | _ => false)

/-- Number of commits in a cursor trace. -/
def commitCount (trace : List SqlEvent) : Nat :=
  trace.countP (fun e => e == SqlEvent.commit)

theorem runStatements_all_ok (oracle : Nat → Bool) (h : ∀ k, oracle k = true) :
    ∀ (stmts : List String) (k : Nat),
      runStatements oracle stmts k = (true, stmts.map SqlEvent.execStmt) := by
  intro stmts
  induction stmts with
  | nil => intro k; rfl
  | cons s rest ih =>
    intro k
    simp [runStatements, h k, ih (k + 1)]

theorem runStatements_first_fail (oracle : Nat → Bool) :
    ∀ (stmts : List String) (k0 k : Nat),
      (∀ j, j < k → oracle (k0 + j) = true) → oracle (k0 + k) = false →
      k < stmts.length →
      runStatements oracle stmts k0 =
        (false, (stmts.take (k + 1)).map SqlEvent.execStmt) := by
  intro stmts
  induction stmts with
  | nil =>
    intro k0 k _ _ hlen
    simp at hlen
  | cons s rest ih =>
    intro k0 k hok hfail hlen
    cases k with
    | zero =>
      simp only [Nat.add_zero] at hfail
      simp [runStatements, hfail]
    | succ m =>
      have h0 : oracle k0 = true := by
        have := hok 0 (Nat.succ_pos m)
        simpa using this
      have ihx := ih (k0 + 1) m
        (fun j hj => by
          have h1 := hok (j + 1) (by omega)
          have heq : k0 + 1 + j = k0 + (j + 1) := by omega
          rw [heq]
          exact h1)
        (by
          have : k0 + 1 + m = k0 + (m + 1) := by omega
          rw [this]; exact hfail)
        (by simpa using Nat.lt_of_succ_lt_succ hlen)
      simp [runStatements, h0, ihx]

/-- C4 (amended): `execute_file` splits on semicolons and executes every
segment whose stripped form is non-empty — comment-only segments such as
`-- comment` included — in order; when all statements succeed it commits
exactly once, after all of them; the first failing statement aborts the
run with no commit. On the file `INSERT ...; -- comment\n; SELECT 1;`
the statements executed are exactly the three segments
`INSERT ...`, `-- comment`, `SELECT 1`. -/
theorem execute_file_behaviour (content : String) (oracle : Nat → Bool) (k : Nat) :
    ((∀ j, oracle j = true) →
      execute_file content oracle =
        (true, (fileStatements content).map SqlEvent.execStmt ++ [SqlEvent.commit])) ∧
    ((∀ j, j < k → oracle j = true) → oracle k = false →
      k < (fileStatements content).length →
      execute_file content oracle =
        (false, ((fileStatements content).take (k + 1)).map SqlEvent.execStmt) ∧
      commitCount (execute_file content oracle).2 = 0) ∧
    fileStatements "INSERT ...; -- comment\n; SELECT 1;" =
      ["INSERT ...", "-- comment", "SELECT 1"] := by
  refine ⟨?_, ?_, by decide⟩
  · intro h
    simp [execute_file, runStatements_all_ok oracle h]
  · intro hok hfail hlen
    have hrun := runStatements_first_fail oracle (fileStatements content) 0 k
      (fun j hj => by simpa using hok j hj) (by simpa using hfail) hlen
    constructor
    · simp [execute_file, hrun]
    · simp [execute_file, hrun, commitCount]
      intro a ha
      obtain ⟨s, _, rfl⟩ := List.mem_map.mp (List.mem_of_mem_take ha)
      simp

/-- Witness for C4 (amended), on the spec's example file: with every
statement succeeding, the trace is the three statements followed by a
single commit; with the first statement failing, only that statement runs
and nothing commits. -/
theorem execute_file_behaviour_witness :
    execute_file "INSERT ...; -- comment\n; SELECT 1;" (fun _ => true) =
      (true, [SqlEvent.execStmt "INSERT ...", SqlEvent.execStmt "-- comment",
              SqlEvent.execStmt "SELECT 1", SqlEvent.commit]) ∧
    execute_file "INSERT ...; -- comment\n; SELECT 1;" (fun _ => false) =
      (false, [SqlEvent.execStmt "INSERT ..."]) := by
  constructor
  · have h := (execute_file_behaviour "INSERT ...; -- comment\n; SELECT 1;"
      (fun _ => true) 0).1 (fun _ => rfl)
    rw [h]
    decide
  · have h := ((execute_file_behaviour "INSERT ...; -- comment\n; SELECT 1;"
      (fun _ => false) 0).2.1 (fun j hj => absurd hj (Nat.not_lt_zero j)) rfl
      (by decide)).1
    rw [h]
    decide

/-- C4 counterexample: on the file from the claim, `execute_file` executes
three statements, not two — the segment between the first and second
semicolons strips to the non-empty string `-- comment` and is executed. -/
theorem execute_file_two_statements_false :
    ¬ execCount (execute_file "INSERT ...; -- comment\n; SELECT 1;"
        (fun _ => true)).2 = 2 := by
  decide

/-- The connector's connection slot: `None`, an open connection, or a
connection object whose `is_closed()` is true. -/
inductive ConnState where
  | absent : ConnState
  | opened : ConnState
  | closedConn : ConnState
deriving DecidableEq, Repr

/-- `SnowflakeConnector.close` (lines 75-79): only an open connection is
closed and the slot reset to `None`; otherwise nothing happens. -/
def close : ConnState → ConnState
  | .opened => .absent
  | s => s

/-- C8: `close` is idempotent — on an absent or already-closed connection
it is a no-op, closing twice equals closing once, and from the states the
connector itself produces (absent or open) a close leaves the slot `None`. -/
theorem close_idempotent :
    (∀ s : ConnState, close (close s) = close s) ∧
    close ConnState.absent = ConnState.absent ∧
    close ConnState.closedConn = ConnState.closedConn ∧
    close ConnState.opened = ConnState.absent := by
  refine ⟨?_, rfl, rfl, rfl⟩
  intro s
  cases s <;> rfl

/-! ### FileIngestion (`scripts/ingestion/file_ingestion.py`) -/

/-- Outcome of the pipe-status query in `check_pipe_status`: the query
raises, or `fetchone()` yields `None` or a row (tuple of column values). -/
inductive QueryOutcome where
  | ok : Option (List String) → QueryOutcome
  | err : String → QueryOutcome
deriving DecidableEq, Repr

/-- `FileIngestion.check_pipe_status` (lines 68-83): `result[0] if result
else None` on the fetched row, with any exception caught and turned into
`None`. -/
def check_pipe_status (outcome : QueryOutcome) : Option String :=
  match outcome with
  | .err _ => none
  | .ok none => none
  | .ok (some []) => none
  | .ok (some (x :: _)) => some x

/-- C10: `check_pipe_status` returns `none` both when the query yields no
row and when the query raises, so the two situations are indistinguishable
to the caller; a present row is returned through its first column. -/
theorem check_pipe_status_conflates :
    (check_pipe_status (QueryOutcome.ok none) = none) ∧
    (∀ msg, check_pipe_status (QueryOutcome.err msg) = none) ∧
    (∀ msg, check_pipe_status (QueryOutcome.ok none) =
      check_pipe_status (QueryOutcome.err msg)) ∧
    (∀ x rest, check_pipe_status (QueryOutcome.ok (some (x :: rest))) = some x) := by
  exact ⟨rfl, fun _ => rfl, fun _ => rfl, fun _ _ => rfl⟩

/-! ### PipelineOrchestrator (`scripts/orchestration/pipeline_orchestrator.py`) -/

/-- Warehouse-side effects of the orchestrator: the start-log insert, the
end-log update (status and optional error message), and a stored-procedure
call; each carries the run id interpolated into its SQL. -/
inductive OrchEvent where
  | logStart : String → String → OrchEvent
  | logEnd : String → String → String → Option String → OrchEvent
  | callProc : String → String → OrchEvent
deriving DecidableEq, Repr

/-- The run identifier built in `PipelineOrchestrator.__init__` (line 28):
`RUN_` plus the wall-clock timestamp plus the first 8 characters of a
fresh UUID string. -/
def mkRunId (now uuidStr : String) : String :=
  "RUN_" ++ now ++ "_" ++ String.mk (uuidStr.data.take 8)

/-- The orchestrator's per-instance state: the run id assigned once at
construction. -/
structure Orchestrator where
  run_id : String
deriving DecidableEq, Repr

/-- `PipelineOrchestrator.__init__`: generate the run id from the current
time and a fresh UUID string. -/
def initOrchestrator (now uuidStr : String) : Orchestrator :=
  ⟨mkRunId now uuidStr⟩

/-- `PipelineOrchestrator.run_ingestion` (lines 63-81), with the outcome
of `ingest_all_endpoints` supplied by the environment: either the body
raises with a message, or it returns the name-to-success mapping, and the
stage succeeds iff every endpoint succeeded. -/
def run_ingestion (runId : String)
    (env : Except String (List (String × Bool))) : Bool × List OrchEvent :=
  let start := OrchEvent.logStart "INGESTION" runId
  match env with
  | .error msg => (false, [start, .logEnd "INGESTION" runId "FAILED" (some msg)])
  | .ok results =>
    let ok := results.all (fun p => p.2)
    (ok, [start, .logEnd "INGESTION" runId (if ok then "SUCCESS" else "FAILED") none])

/-- The three stored procedures `run_transformation` calls, in source
order (lines 92-116). -/
def transformProcs : List String :=
  ["CLEANED.CLEAN_RAW_DATA", "CLEANED.REMOVE_DUPLICATES",
   "CLEANED.APPLY_BUSINESS_TRANSFORMS"]

/-- `PipelineOrchestrator.run_transformation` (lines 83-126): call the
three procedures in order; `env = some (k, msg)` means the `k`-th call
raises `msg` (earlier calls having executed), `none` means all succeed. -/
def run_transformation (runId : String)
    (env : Option (Fin 3 × String)) : Bool × List OrchEvent :=
  let start := OrchEvent.logStart "TRANSFORMATION" runId
  match env with
  | none =>
    (true, start :: transformProcs.map (fun p => OrchEvent.callProc p runId) ++
      [OrchEvent.logEnd "TRANSFORMATION" runId "SUCCESS" none])
  | some (k, msg) =>
    (false, start ::
      (transformProcs.take (k.1 + 1)).map (fun p => OrchEvent.callProc p runId) ++
      [OrchEvent.logEnd "TRANSFORMATION" runId "FAILED" (some msg)])

/-- Environment of `run_validation`: the `RUN_ALL_VALIDATIONS` call
raises, the failed-checks count query raises, or the query returns its
`fetchone()` row (a count, or no row). -/
inductive ValEnv where
  | raiseOnCall : String → ValEnv
  | raiseOnQuery : String → ValEnv
  | countRow : Option Nat → ValEnv
deriving DecidableEq, Repr

/-- `PipelineOrchestrator.run_validation` (lines 128-163): invoke the
validation procedure, read `failed_checks` from the count query
(`result[0] if result else 0`), log `SUCCESS` on a zero count and
`FAILED` with the count message otherwise; any exception in the body is
caught, logged as `FAILED` with its message, and becomes `false`. -/
def run_validation (runId : String) (env : ValEnv) : Bool × List OrchEvent :=
  let start := OrchEvent.logStart "VALIDATION" runId
  let call := OrchEvent.callProc "VALIDATION.RUN_ALL_VALIDATIONS" runId
  match env with
  | .raiseOnCall msg =>
    (false, [start, call, .logEnd "VALIDATION" runId "FAILED" (some msg)])
  | .raiseOnQuery msg =>
    (false, [start, call, .logEnd "VALIDATION" runId "FAILED" (some msg)])
  | .countRow row =>
    let failed_checks := row.getD 0
    (failed_checks == 0,
     [start, call,
      .logEnd "VALIDATION" runId
        (if failed_checks == 0 then "SUCCESS" else "FAILED")
        (if failed_checks > 0
          then some (toString failed_checks ++ " validation checks failed")
          else none)])

/-- Environment of a full pipeline run: outcomes of the three stage
bodies. -/
structure OrchEnv where
  ingest : Except String (List (String × Bool))
  transform : Option (Fin 3 × String)
  validate : ValEnv

/-- The orchestrator's stage-result mapping, initialised to all-`false`
before the stages run. -/
structure PipelineResults where
  ingestion : Bool
  transformation : Bool
  validation : Bool
deriving DecidableEq, Repr

/-- `PipelineOrchestrator.run_full_pipeline` (lines 165-199): run
ingestion, transformation and validation in order, recording each result
and returning immediately after the first failing stage. -/
def run_full_pipeline (runId : String) (env : OrchEnv) :
    PipelineResults × List OrchEvent :=
  let r1 := run_ingestion runId env.ingest
  if r1.1 = false then (⟨r1.1, false, false⟩, r1.2)
  else
    let r2 := run_transformation runId env.transform
    if r2.1 = false then (⟨r1.1, r2.1, false⟩, r1.2 ++ r2.2)
    else
      let r3 := run_validation runId env.validate
      (⟨r1.1, r2.1, r3.1⟩, r1.2 ++ r2.2 ++ r3.2)

/-- Does an orchestrator event belong to the transformation stage (its
log rows or its stored-procedure calls)? -/
def isTransformationEvent : OrchEvent → Bool
  | .logStart p _ => p == "TRANSFORMATION"
  | .logEnd p _ _ _ => p == "TRANSFORMATION"
  | .callProc p _ => transformProcs.contains p

/-- Does an orchestrator event belong to the validation stage? -/
def isValidationEvent : OrchEvent → Bool
  | .logStart p _ => p == "VALIDATION"
  | .logEnd p _ _ _ => p == "VALIDATION"
  | .callProc p _ => p == "VALIDATION.RUN_ALL_VALIDATIONS"

/-- The run id carried by an orchestrator event. -/
def eventRunId : OrchEvent → String
  | .logStart _ r => r
  | .logEnd _ r _ _ => r
  | .callProc _ r => r

/-- C2: `run_full_pipeline` never executes a stage after a failed one —
on an ingestion failure the result mapping is all-`false` and the run's
trace is exactly the ingestion stage's trace, containing no
transformation or validation event; on a transformation failure the
validation entry stays `false` and no validation event occurs. -/
theorem run_full_pipeline_short_circuits (runId : String) (env : OrchEnv) :
    ((run_ingestion runId env.ingest).1 = false →
      (run_full_pipeline runId env).1 = ⟨false, false, false⟩ ∧
      (run_full_pipeline runId env).2 = (run_ingestion runId env.ingest).2 ∧
      (run_full_pipeline runId env).2.all
        (fun e => !isTransformationEvent e && !isValidationEvent e) = true) ∧
    ((run_ingestion runId env.ingest).1 = true →
      (run_transformation runId env.transform).1 = false →
      (run_full_pipeline runId env).1 = ⟨true, false, false⟩ ∧
      (run_full_pipeline runId env).2.all (fun e => !isValidationEvent e) = true) := by
  constructor
  · intro h1
    refine ⟨?_, ?_, ?_⟩
    · simp [run_full_pipeline, h1]
    · simp [run_full_pipeline, h1]
    · have htr : (run_full_pipeline runId env).2 = (run_ingestion runId env.ingest).2 := by
        simp [run_full_pipeline, h1]
      rw [htr]
      cases env.ingest <;>
        simp [run_ingestion, isTransformationEvent, isValidationEvent, transformProcs]
  · intro h1 h2
    constructor
    · simp [run_full_pipeline, h1, h2]
    · have htr : (run_full_pipeline runId env).2 =
          (run_ingestion runId env.ingest).2 ++ (run_transformation runId env.transform).2 := by
        simp [run_full_pipeline, h1, h2]
      rw [htr, List.all_append]
      refine Bool.and_eq_true_iff.mpr ⟨?_, ?_⟩
      · cases env.ingest <;> simp [run_ingestion, isValidationEvent]
      · rcases henv : env.transform with _ | ⟨k, msg⟩
        · simp [run_transformation, isValidationEvent, transformProcs]
        · rw [List.all_eq_true]
          intro e he
          simp only [run_transformation, List.mem_cons, List.mem_append,
            List.mem_map, List.mem_singleton] at he
          rcases he with (rfl | ⟨p, hp, rfl⟩) | (rfl | h)
          · simp [isValidationEvent]
          · have hp2 := List.mem_of_mem_take hp
            fin_cases hp2 <;> simp [isValidationEvent]
          · simp [isValidationEvent]
          · exact absurd h (List.not_mem_nil e)

/-- Witness for C2: a run whose only endpoint fails at ingestion yields
the all-`false` mapping and an ingestion-only trace; a run whose
ingestion succeeds (no endpoints) and whose first transformation call
raises leaves validation unrun. -/
theorem run_full_pipeline_short_circuits_witness :
    ((run_full_pipeline "r" ⟨Except.ok [("e", false)], none, ValEnv.countRow none⟩).1 =
        ⟨false, false, false⟩ ∧
      (run_full_pipeline "r" ⟨Except.ok [("e", false)], none, ValEnv.countRow none⟩).2 =
        (run_ingestion "r" (Except.ok [("e", false)])).2 ∧
      (run_full_pipeline "r" ⟨Except.ok [("e", false)], none, ValEnv.countRow none⟩).2.all
        (fun e => !isTransformationEvent e && !isValidationEvent e) = true) ∧
    ((run_full_pipeline "r" ⟨Except.ok [], some (⟨0, by decide⟩, "boom"),
        ValEnv.countRow none⟩).1 = ⟨true, false, false⟩ ∧
      (run_full_pipeline "r" ⟨Except.ok [], some (⟨0, by decide⟩, "boom"),
        ValEnv.countRow none⟩).2.all (fun e => !isValidationEvent e) = true) :=
  ⟨(run_full_pipeline_short_circuits "r"
      ⟨Except.ok [("e", false)], none, ValEnv.countRow none⟩).1 rfl,
   (run_full_pipeline_short_circuits "r"
      ⟨Except.ok [], some (⟨0, by decide⟩, "boom"), ValEnv.countRow none⟩).2 rfl rfl⟩

theorem run_ingestion_runId (runId : String) (env : Except String (List (String × Bool))) :
    (run_ingestion runId env).2.all (fun e => eventRunId e == runId) = true := by
  cases env <;> simp [run_ingestion, eventRunId]

theorem run_transformation_runId (runId : String) (env : Option (Fin 3 × String)) :
    (run_transformation runId env).2.all (fun e => eventRunId e == runId) = true := by
  rcases env with _ | ⟨k, msg⟩
  · simp [run_transformation, eventRunId, transformProcs]
  · rw [List.all_eq_true]
    intro e he
    simp only [run_transformation, List.mem_cons, List.mem_append,
      List.mem_map, List.mem_singleton] at he
    rcases he with (rfl | ⟨p, hp, rfl⟩) | (rfl | h)
    · simp [eventRunId]
    · simp [eventRunId]
    · simp [eventRunId]
    · exact absurd h (List.not_mem_nil e)

theorem run_validation_runId (runId : String) (env : ValEnv) :
    (run_validation runId env).2.all (fun e => eventRunId e == runId) = true := by
  cases env <;> simp [run_validation, eventRunId]

/-- C6: the run id is fixed at construction — `RUN_` plus the timestamp
plus the first 8 characters of the UUID string — and every warehouse
event of a full pipeline run (each stage's start-log insert, end-log
update, and procedure call) carries exactly that run id, under every
environment. -/
theorem run_id_generated_once_and_threaded (now uuidStr : String) (env : OrchEnv) :
    (initOrchestrator now uuidStr).run_id =
      "RUN_" ++ now ++ "_" ++ String.mk (uuidStr.data.take 8) ∧
    (run_full_pipeline (initOrchestrator now uuidStr).run_id env).2.all
      (fun e => eventRunId e == (initOrchestrator now uuidStr).run_id) = true := by
  refine ⟨rfl, ?_⟩
  set runId := (initOrchestrator now uuidStr).run_id
  have h1 := run_ingestion_runId runId env.ingest
  have h2 := run_transformation_runId runId env.transform
  have h3 := run_validation_runId runId env.validate
  by_cases hc1 : (run_ingestion runId env.ingest).1 = false
  · simpa [run_full_pipeline, hc1] using h1
  · by_cases hc2 : (run_transformation runId env.transform).1 = false
    · simp [run_full_pipeline, hc1, hc2, List.all_append, h1, h2]
    · simp [run_full_pipeline, hc1, hc2, List.all_append, h1, h2, h3]

/-- C7: the validation stage succeeds iff the failed-checks count is zero
(a missing row counting as zero); a nonzero count returns `false` and
logs `FAILED` with the message `<N> validation checks failed`; an
exception in the stage body (from the validation call or from the count
query) is converted to a `false` return with the error message logged as
`FAILED`, never propagated. -/
theorem run_validation_spec (runId msg : String) (row : Option Nat) :
    ((run_validation runId (ValEnv.countRow row)).1 = true ↔ row.getD 0 = 0) ∧
    (row.getD 0 ≠ 0 →
      (run_validation runId (ValEnv.countRow row)).2 =
        [OrchEvent.logStart "VALIDATION" runId,
         OrchEvent.callProc "VALIDATION.RUN_ALL_VALIDATIONS" runId,
         OrchEvent.logEnd "VALIDATION" runId "FAILED"
           (some (toString (row.getD 0) ++ " validation checks failed"))]) ∧
    (row.getD 0 = 0 →
      (run_validation runId (ValEnv.countRow row)).2 =
        [OrchEvent.logStart "VALIDATION" runId,
         OrchEvent.callProc "VALIDATION.RUN_ALL_VALIDATIONS" runId,
         OrchEvent.logEnd "VALIDATION" runId "SUCCESS" none]) ∧
    ((run_validation runId (ValEnv.raiseOnCall msg)).1 = false ∧
      (run_validation runId (ValEnv.raiseOnCall msg)).2 =
        [OrchEvent.logStart "VALIDATION" runId,
         OrchEvent.callProc "VALIDATION.RUN_ALL_VALIDATIONS" runId,
         OrchEvent.logEnd "VALIDATION" runId "FAILED" (some msg)]) ∧
    ((run_validation runId (ValEnv.raiseOnQuery msg)).1 = false ∧
      (run_validation runId (ValEnv.raiseOnQuery msg)).2 =
        [OrchEvent.logStart "VALIDATION" runId,
         OrchEvent.callProc "VALIDATION.RUN_ALL_VALIDATIONS" runId,
         OrchEvent.logEnd "VALIDATION" runId "FAILED" (some msg)]) := by
  refine ⟨?_, ?_, ?_, ⟨rfl, rfl⟩, ⟨rfl, rfl⟩⟩
  · simp [run_validation]
  · intro h
    simp [run_validation, h, Nat.pos_of_ne_zero h]
  · intro h
    simp [run_validation, h]

/-- Witness for C7: with a row reporting 2 failed checks the stage fails
and logs `2 validation checks failed`; with a zero count it succeeds; a
raised error message `boom` is logged and converted to `false`. -/
theorem run_validation_spec_witness :
    ((run_validation "r" (ValEnv.countRow (some 2))).1 = true ↔ (some 2).getD 0 = 0) ∧
    (run_validation "r" (ValEnv.countRow (some 2))).2 =
      [OrchEvent.logStart "VALIDATION" "r",
       OrchEvent.callProc "VALIDATION.RUN_ALL_VALIDATIONS" "r",
       OrchEvent.logEnd "VALIDATION" "r" "FAILED"
         (some "2 validation checks failed")] ∧
    ((run_validation "r" (ValEnv.raiseOnCall "boom")).1 = false ∧
      (run_validation "r" (ValEnv.raiseOnCall "boom")).2 =
        [OrchEvent.logStart "VALIDATION" "r",
         OrchEvent.callProc "VALIDATION.RUN_ALL_VALIDATIONS" "r",
         OrchEvent.logEnd "VALIDATION" "r" "FAILED" (some "boom")]) := by
  have h := run_validation_spec "r" "boom" (some 2)
  exact ⟨h.1, h.2.1 (by decide), h.2.2.2.1⟩

/-! ### APIIngestion endpoint lookup, loading, and auth headers -/

/-- An entry of `api_ingestion.endpoints` in the YAML config; `Option`
fields are keys read through `dict.get` with a default. -/
structure EndpointConfig where
  name : String
  enabled : Option Bool
  url : String
  method : Option String
  auth_type : Option String
  headers : List (String × String)
  bearer_token : Option String
  api_key : Option String
  params : List (String × String)
  target_table : String
deriving DecidableEq, Repr

/-- The `api_ingestion` section of the config. -/
structure ApiConfig where
  rate_limit : RateLimitConfig
  endpoints : List EndpointConfig

/-- Cursor operations performed by `_load_to_snowflake`: the
`CREATE TABLE IF NOT EXISTS`, one `INSERT` per record, and the commit. -/
inductive DbOp where
  | createTable : String → DbOp
  | insertRow : String → DbOp
  | commitTx : DbOp
deriving DecidableEq, Repr

/-- Run cursor operations in order; the oracle says whether the `k`-th
operation succeeds, and the first failing one raises (caught by the
surrounding `except`, making the load return `False`). -/
def runOps (oracle : Nat → Bool) : List DbOp → Nat → Bool × List DbOp
  | [], _ => (true, [])
  | op :: rest, k =>
    if oracle k then
      let r := runOps oracle rest (k + 1)
      (r.1, op :: r.2)
    else (false, [op])

/-- `APIIngestion._load_to_snowflake` (lines 106-157): an empty record
list is refused up front (`if not data: return False`) with no database
activity; otherwise create the target table, insert each record, and
commit, converting any exception into a `False` return. -/
def load_to_snowflake (data : List PyVal) (target_table : String)
    (dbOracle : Nat → Bool) : Bool × List DbOp :=
  if data.isEmpty then (false, [])
  else
    runOps dbOracle
      (DbOp.createTable target_table ::
        data.map (fun _ => DbOp.insertRow target_table) ++ [DbOp.commitTx]) 0

/-- External activity of `ingest_endpoint`: HTTP-side fetch events and
warehouse-side cursor operations. -/
inductive IngEvent where
  | fetch : FetchEvent → IngEvent
  | db : DbOp → IngEvent
deriving DecidableEq, Repr

/-- `APIIngestion.ingest_endpoint` (lines 159-186): find the first
configured endpoint with the requested name whose `enabled` flag (default
`True` when absent) is set; missing or disabled means an immediate
`False` with no external activity; otherwise fetch (an absent fetch
result is `False`) and load into the endpoint's target table. -/
def ingest_endpoint (cfg : ApiConfig) (fetchOracle : Nat → AttemptResult)
    (dbOracle : Nat → Bool) (endpoint_name : String) : Bool × List IngEvent :=
  match cfg.endpoints.find?
      (fun ep => ep.name == endpoint_name && ep.enabled.getD true) with
  | none => (false, [])
  | some ep =>
    let f := fetch_api_data cfg.rate_limit fetchOracle
    match f.2 with
    | none => (false, f.1.map IngEvent.fetch)
    | some data =>
      let l := load_to_snowflake data ep.target_table dbOracle
      (l.1, f.1.map IngEvent.fetch ++ l.2.map IngEvent.db)

/-- Number of HTTP requests among an endpoint ingestion's events. -/
def networkCallCount (trace : List IngEvent) : Nat :=
  trace.countP (fun e => e == IngEvent.fetch FetchEvent.request)

/-- C5 counterexample: an endpoint whose `enabled` key is absent is
treated as enabled — looking it up succeeds and `ingest_endpoint` issues
network calls (three requests under the default retry budget with a
failing transport), contradicting the claim that an absent flag yields an
immediate failure with no network call. -/
theorem ingest_endpoint_enabled_absent_calls_network :
    ¬ networkCallCount (ingest_endpoint
        ⟨⟨none, none, none⟩,
         [⟨"e", none, "http://x", none, none, [], none, none, [], "T"⟩]⟩
        (fun _ => AttemptResult.raise) (fun _ => true) "e").2 = 0 := by
  decide

/-- C5 (amended): when every configured endpoint carrying the requested
name is explicitly disabled (`enabled = false`) — in particular when no
endpoint has that name — `ingest_endpoint` returns `false` immediately,
with no network call and no warehouse operation; an absent `enabled`
flag defaults to enabled and does not short-circuit. -/
theorem ingest_endpoint_disabled_or_missing (cfg : ApiConfig)
    (fetchOracle : Nat → AttemptResult) (dbOracle : Nat → Bool)
    (endpoint_name : String)
    (h : ∀ ep ∈ cfg.endpoints, ep.name = endpoint_name → ep.enabled = some false) :
    ingest_endpoint cfg fetchOracle dbOracle endpoint_name = (false, []) := by
  have hfind : cfg.endpoints.find?
      (fun ep => ep.name == endpoint_name && ep.enabled.getD true) = none := by
    rw [List.find?_eq_none]
    intro ep hep
    by_cases hname : ep.name = endpoint_name
    · have hdis := h ep hep hname
      simp [hname, hdis]
    · simp [hname]
  simp [ingest_endpoint, hfind]

/-- Witness for C5 (amended): a single explicitly disabled endpoint named
`e` — requesting `e` (disabled) or `missing` (absent) fails with an empty
trace. -/
theorem ingest_endpoint_disabled_or_missing_witness :
    ingest_endpoint ⟨⟨none, none, none⟩,
        [⟨"e", some false, "http://x", none, none, [], none, none, [], "T"⟩]⟩
      (fun _ => AttemptResult.raise) (fun _ => true) "e" = (false, []) ∧
    ingest_endpoint ⟨⟨none, none, none⟩,
        [⟨"e", some false, "http://x", none, none, [], none, none, [], "T"⟩]⟩
      (fun _ => AttemptResult.raise) (fun _ => true) "missing" = (false, []) :=
  ⟨ingest_endpoint_disabled_or_missing _ _ _ _
      (fun ep hep _ => by
        rw [show ep = ⟨"e", some false, "http://x", none, none, [], none, none, [], "T"⟩
          from List.eq_of_mem_singleton hep]),
   ingest_endpoint_disabled_or_missing _ _ _ _
      (fun ep hep hname => by
        rw [List.eq_of_mem_singleton hep] at hname
        exact absurd hname (by decide))⟩

/-- Python's `a or b` over an optional environment-variable string:
`os.getenv` yields `None` when unset, and the empty string is falsy. -/
def pyOrStr (envVal : Option String) (fallback : String) : String :=
  match envVal with
  | some s => if s = "" then fallback else s
  | none => fallback

/-- Python dict assignment `m[k] = v` on a string-to-string dict:
overwrite in place if the key exists, else append. -/
def setKey (m : List (String × String)) (k v : String) : List (String × String) :=
  if m.any (fun p => p.1 == k) then
    m.map (fun p => if p.1 == k then (k, v) else p)
  else m ++ [(k, v)]

/-- Dict key lookup on a string-to-string dict. -/
def lookupKey : List (String × String) → String → Option String
  | [], _ => none
  | p :: rest, k => if p.1 = k then some p.2 else lookupKey rest k

/-- The two environment variables `_get_auth_headers` reads. -/
structure AuthEnv where
  API_BEARER_TOKEN : Option String
  API_KEY : Option String
deriving DecidableEq, Repr

/-- `APIIngestion._get_auth_headers` (lines 35-51): copy the endpoint's
static headers, then for `bearer` set `Authorization` to `Bearer <token>`
(token = env var, else config value, else empty), for `api_key` set
`X-API-Key` likewise; `basic` and everything else add nothing. -/
def get_auth_headers (env : AuthEnv) (ep : EndpointConfig) : List (String × String) :=
  if ep.auth_type.getD "none" = "bearer" then
    setKey ep.headers "Authorization"
      ("Bearer " ++ pyOrStr env.API_BEARER_TOKEN (ep.bearer_token.getD ""))
  else if ep.auth_type.getD "none" = "api_key" then
    setKey ep.headers "X-API-Key" (pyOrStr env.API_KEY (ep.api_key.getD ""))
  else ep.headers

/-- An optional config or environment value that supplies no token:
missing, or present but empty. -/
def suppliesNoToken (o : Option String) : Prop := o = none ∨ o = some ""

theorem pyOrStr_no_token (envVal : Option String) (fallback : String)
    (he : suppliesNoToken envVal) : pyOrStr envVal fallback = fallback := by
  rcases he with rfl | rfl <;> simp [pyOrStr]

theorem lookupKey_map_overwrite_self (t : List (String × String)) (k v : String)
    (hany : t.any (fun p => p.1 == k) = true) :
    lookupKey (t.map (fun p => if p.1 == k then (k, v) else p)) k = some v := by
  induction t with
  | nil => simp at hany
  | cons a t ih =>
    by_cases ha : (a.1 == k) = true
    · simp [lookupKey, ha]
    · have hne : ¬ a.1 = k := by simpa using ha
      simp only [List.any_cons, ha, Bool.false_or] at hany
      simpa [lookupKey, ha, hne] using ih hany

theorem lookupKey_append_none (m : List (String × String)) (k v : String)
    (hnone : lookupKey m k = none) :
    lookupKey (m ++ [(k, v)]) k = some v := by
  induction m with
  | nil => simp [lookupKey]
  | cons a t ih =>
    by_cases ha : a.1 = k
    · simp [lookupKey, ha] at hnone
    · simp only [lookupKey, ha, if_false] at hnone
      simpa [lookupKey, ha] using ih hnone

theorem lookupKey_none_of_any_false (m : List (String × String)) (k : String)
    (hany : m.any (fun p => p.1 == k) = false) : lookupKey m k = none := by
  induction m with
  | nil => rfl
  | cons a t ih =>
    simp only [List.any_cons, Bool.or_eq_false_iff] at hany
    have hne : ¬ a.1 = k := by simpa using hany.1
    simpa [lookupKey, hne] using ih hany.2

theorem lookupKey_setKey_self (m : List (String × String)) (k v : String) :
    lookupKey (setKey m k v) k = some v := by
  unfold setKey
  split
  · rename_i hany
    exact lookupKey_map_overwrite_self m k v hany
  · rename_i hany
    exact lookupKey_append_none m k v
      (lookupKey_none_of_any_false m k (Bool.eq_false_iff.mpr hany))

theorem lookupKey_map_overwrite_ne (t : List (String × String)) (k v k2 : String)
    (h : k2 ≠ k) :
    lookupKey (t.map (fun p => if p.1 == k then (k, v) else p)) k2 =
      lookupKey t k2 := by
  induction t with
  | nil => rfl
  | cons a t ih =>
    by_cases ha : (a.1 == k) = true
    · have hak : a.1 = k := by simpa using ha
      have h1 : ¬ k = k2 := fun hh => h hh.symm
      have h2 : ¬ a.1 = k2 := by rw [hak]; exact h1
      simpa [lookupKey, ha, h1, h2] using ih
    · by_cases ha2 : a.1 = k2
      · simp only [List.map_cons]
        rw [if_neg ha]
        simp [lookupKey, ha2]
      · simp only [List.map_cons]
        rw [if_neg ha]
        simpa [lookupKey, ha2] using ih

theorem lookupKey_append_single_ne (m : List (String × String)) (k v k2 : String)
    (h : k2 ≠ k) : lookupKey (m ++ [(k, v)]) k2 = lookupKey m k2 := by
  induction m with
  | nil =>
    have h1 : ¬ k = k2 := fun hh => h hh.symm
    simp [lookupKey, h1]
  | cons a t ih =>
    by_cases ha : a.1 = k2
    · simp [lookupKey, ha]
    · simpa [lookupKey, ha] using ih

theorem lookupKey_setKey_ne (m : List (String × String)) (k v k2 : String)
    (h : k2 ≠ k) : lookupKey (setKey m k v) k2 = lookupKey m k2 := by
  unfold setKey
  split
  · exact lookupKey_map_overwrite_ne m k v k2 h
  · exact lookupKey_append_single_ne m k v k2 h

/-- C9: with auth type `bearer` (resp. `api_key`) and no token supplied by
either the environment or the config, `_get_auth_headers` still injects
the header — `Authorization` becomes the literal `Bearer ` with an empty
token (resp. `X-API-Key` becomes the empty string) — and only that header
differs from the endpoint's static headers, which the function leaves
untouched (it modifies a copy). -/
theorem get_auth_headers_empty_token (env : AuthEnv) (ep : EndpointConfig) :
    (ep.auth_type = some "bearer" → suppliesNoToken env.API_BEARER_TOKEN →
      suppliesNoToken ep.bearer_token →
      lookupKey (get_auth_headers env ep) "Authorization" = some "Bearer ") ∧
    (ep.auth_type = some "api_key" → suppliesNoToken env.API_KEY →
      suppliesNoToken ep.api_key →
      lookupKey (get_auth_headers env ep) "X-API-Key" = some "") ∧
    (∀ k, k ≠ "Authorization" → k ≠ "X-API-Key" →
      lookupKey (get_auth_headers env ep) k = lookupKey ep.headers k) := by
  refine ⟨?_, ?_, ?_⟩
  · intro hat henv hcfg
    have htok : pyOrStr env.API_BEARER_TOKEN (ep.bearer_token.getD "") = "" := by
      rcases hcfg with hc | hc <;>
        simp [pyOrStr_no_token _ _ henv, hc]
    simp [get_auth_headers, hat, htok, lookupKey_setKey_self]
  · intro hat henv hcfg
    have htok : pyOrStr env.API_KEY (ep.api_key.getD "") = "" := by
      rcases hcfg with hc | hc <;>
        simp [pyOrStr_no_token _ _ henv, hc]
    simp [get_auth_headers, hat, htok, lookupKey_setKey_self]
  · intro k hk1 hk2
    unfold get_auth_headers
    split
    · exact lookupKey_setKey_ne _ _ _ _ hk1
    · split
      · exact lookupKey_setKey_ne _ _ _ _ hk2
      · rfl

/-- Witness for C9: an endpoint with one static header, bearer auth, and
no token anywhere gets `Authorization: Bearer ` (empty token) while its
static header survives; the `api_key` case yields an empty `X-API-Key`. -/
theorem get_auth_headers_empty_token_witness :
    lookupKey (get_auth_headers ⟨none, none⟩
        ⟨"e", none, "http://x", none, some "bearer", [("Accept", "json")],
         none, none, [], "T"⟩) "Authorization" = some "Bearer " ∧
    lookupKey (get_auth_headers ⟨some "", none⟩
        ⟨"e", none, "http://x", none, some "api_key", [], none, some "", [], "T"⟩)
      "X-API-Key" = some "" ∧
    lookupKey (get_auth_headers ⟨none, none⟩
        ⟨"e", none, "http://x", none, some "bearer", [("Accept", "json")],
         none, none, [], "T"⟩) "Accept" = some "json" :=
  ⟨(get_auth_headers_empty_token ⟨none, none⟩
      ⟨"e", none, "http://x", none, some "bearer", [("Accept", "json")],
       none, none, [], "T"⟩).1 rfl (Or.inl rfl) (Or.inl rfl),
   (get_auth_headers_empty_token ⟨some "", none⟩
      ⟨"e", none, "http://x", none, some "api_key", [], none, some "", [], "T"⟩).2.1
     rfl (Or.inl rfl) (Or.inr rfl),
   (get_auth_headers_empty_token ⟨none, none⟩
      ⟨"e", none, "http://x", none, some "bearer", [("Accept", "json")],
       none, none, [], "T"⟩).2.2 "Accept" (by decide) (by decide)⟩

end Snoqflak
